import Mathlib

/-!
Shallow embedding of `src/network_inspector.py` (class `NetworkInspector`):
the credential-fallback connection loop, command resolution, per-command
execution with failure isolation, and the per-device orchestration loop.

The external session provider (Netmiko's `ConnectHandler`,
`find_prompt`, `send_command_timing`, `disconnect`) is modelled as an
environment: each connection attempt `i` (0 = primary password,
1 = backup password) yields an outcome chosen by the environment, and a
successfully opened session carries its own prompt and per-command
behaviours.  The embedding is instrumented: every function returns,
alongside the Python function's result, the ordered list of observable
events (connection attempts, command sends, session closes) so that
claims about "how often the provider is called" are statable.
-/

namespace NetworkInspector

/-- A device descriptor, as read from `devices.json`.  `backup_password`
and `commands` model the optional dict keys (`none` = key absent); Python
truthiness of a present value (non-empty string / non-empty list) is
checked where the source checks it. -/
structure Device where
  host : String
  device_type : String
  password : String
  backup_password : Option String
  commands : Option (List String)
  deriving DecidableEq, Repr

/-- Behaviour of one live session, as chosen by the environment:
`findPrompt` is the outcome of `connection.find_prompt()` (`Except.error`
models a raised exception), and `send i cmd` is the outcome of the `i`-th
`connection.send_command_timing(cmd, ...)` call (`Except.ok none` models
a `None` return, which the source turns into `''` via `cmd_output or ''`). -/
structure SessionBeh where
  findPrompt : Except String String
  send : Nat → String → Except String (Option String)

/-- Outcome of one `ConnectHandler(**device_config)` call: success with a
session, `NetMikoAuthenticationException`, `NetMikoTimeoutException`, or
any other exception with its message. -/
inductive ConnectOutcome where
  | success (s : SessionBeh)
  | authFail
  | timeout
  | otherError (msg : String)

/-- The environment: `connect i` is the outcome of the `i`-th connection
attempt for the device under inspection (attempt `i` uses `passwords[i]`). -/
structure Env where
  connect : Nat → ConnectOutcome

/-- Observable events of one device inspection: a `ConnectHandler` call
(with the attempt index and the password placed in the config), a
`send_command_timing` call, a `disconnect` call. -/
inductive Event where
  | connectAttempt (i : Nat) (password : String)
  | sendCmd (i : Nat) (cmd : String)
  | close
  deriving DecidableEq, Repr

/-- The result dict built by `inspect_device` (lines 87-94 initialise it). -/
structure Result where
  hostname : String
  ip_address : String
  device_type : String
  status : String
  output : String
  password_used : Option String
  deriving DecidableEq, Repr

/-- The per-platform built-in default command table
(`commands_map`, lines 205-260). -/
def commands_map : List (String × List String) :=
  [ ("cisco_ios",
      ["show version", "show ip interface brief", "show vlan brief",
       "show spanning-tree summary", "show arp", "show processes cpu",
       "show memory statistics"]),
    ("cisco_xe",
      ["show version", "show ip interface brief", "show vlan brief",
       "show spanning-tree summary", "show arp", "show processes cpu",
       "show memory statistics"]),
    ("cisco_nxos",
      ["show version", "show interface brief", "show vlan brief",
       "show spanning-tree detail", "show ip arp", "show processes cpu",
       "show processes memory"]),
    ("huawei",
      ["display version", "display ip interface brief", "display vlan",
       "display stp brief", "display arp", "display cpu-usage",
       "display memory-usage"]),
    ("h3c",
      ["display version", "display ip interface brief", "display vlan",
       "display stp brief", "display arp", "display cpu-usage",
       "display memory"]),
    ("juniper",
      ["show version", "show interfaces terse", "show vlans",
       "show spanning-tree bridge", "show arp", "show chassis alarms",
       "show system processes summary"]) ]

/-- Truthiness of the device-level override
(`'commands' in device and device['commands']`, line 196). -/
def overrideTruthy (device : Device) : Bool :=
  match device.commands with
  | some cs => cs ≠ []
  | none => false

/-- `NetworkInspector._get_inspection_commands` (lines 185-262).
`selfCommands` is `self.commands`, the externally loaded per-platform
command mapping, modelled as an association list with string keys. -/
def get_inspection_commands (selfCommands : List (String × List String))
    (device : Device) : List String :=
  if overrideTruthy device then (device.commands).getD []
  else if selfCommands ≠ [] ∧ (selfCommands.lookup device.device_type).isSome then
    (selfCommands.lookup device.device_type).getD []
  else
    (commands_map.lookup device.device_type).getD ["show version"]

/-- The ordered candidate password list (lines 98-102): the primary
password, then the backup password when the key is present and truthy. -/
def passwordsOf (device : Device) : List String :=
  let ps := [device.password]
  match device.backup_password with
  | some b => if b ≠ "" then ps ++ [b] else ps
  | none => ps

/-- `password_type` for attempt `i` (line 115). -/
def password_type (i : Nat) : String :=
  if i = 0 then "主密码" else "备用密码"

/-- Outcome of the credential loop (lines 111-136). -/
inductive NegotiationOutcome where
  | connected (s : SessionBeh) (rank : String)
  | timeoutAt
  | errorAt (msg : String)
  | exhausted

/-- The credential loop (lines 111-136): attempt `i` places password `p`
into the config and calls the provider.  Authentication failure moves on
to the next candidate; success, timeout and any other error leave the
loop at once.  Returns the connect events and the outcome. -/
def negotiate (env : Env) : Nat → List String → List Event × NegotiationOutcome
  | _, [] => ([], .exhausted)
  | i, p :: rest =>
    match env.connect i with
    | .success s => ([.connectAttempt i p], .connected s (password_type i))
    | .authFail =>
      let t := negotiate env (i + 1) rest
      (.connectAttempt i p :: t.1, t.2)
    | .timeout => ([.connectAttempt i p], .timeoutAt)
    | .otherError m => ([.connectAttempt i p], .errorAt m)

/-- The transcript label written before each command (line 156). -/
def commandLabel (cmd : String) : String :=
  "\n--- Command: " ++ cmd ++ " ---\n"

/-- The transcript text appended after the label for one command
(lines 158-168): the command output (with `None` collapsed to `''`),
or the inline per-command failure marker. -/
def commandBody (s : SessionBeh) (i : Nat) (cmd : String) : String :=
  match s.send i cmd with
  | .ok o => o.getD ""
  | .error e => "命令 \x27" ++ cmd ++ "\x27 执行失败: " ++ e ++ "\n"

/-- The command loop (lines 155-168): every command gets a labelled
section; a per-command error is recorded inline and the loop continues.
Returns the accumulated output and the send events. -/
def runCommandsAux (s : SessionBeh) : Nat → List String → String × List Event
  | _, [] => ("", [])
  | i, cmd :: rest =>
    let t := runCommandsAux s (i + 1) rest
    (commandLabel cmd ++ commandBody s i cmd ++ t.1, .sendCmd i cmd :: t.2)

/-- The characters stripped from the right of the prompt
(`prompt.rstrip('#>$ ')`, line 147). -/
def promptDecoration : List Char := ['#', '>', '$', ' ']

/-- Python's `prompt.rstrip('#>$ ')`: drop trailing characters belonging
to the decoration set. -/
def rstripPrompt (s : String) : String :=
  ⟨(s.data.reverse.dropWhile (fun c => c ∈ promptDecoration)).reverse⟩

/-- `NetworkInspector.inspect_device` (lines 77-183), instrumented with
the event trace.  `selfCommands` is `self.commands`.  The result starts
with hostname and ip = `device['host']`, status `failed` (lines 87-94);
the credential loop either fails terminally (timeout / other error /
exhausted, each with its failure text and `password_used = None`, which
is only ever assigned on a successful connect at line 120) or yields a
session; then `find_prompt` either raises (caught at line 173) or gives
the hostname, the resolved commands run with per-command isolation and
status becomes `success`; `disconnect` runs on every path with a session
(the `finally` block, lines 176-181). -/
def inspect_device (env : Env) (selfCommands : List (String × List String))
    (device : Device) : Result × List Event :=
  let result0 : Result :=
    { hostname := device.host, ip_address := device.host,
      device_type := device.device_type, status := "failed",
      output := "", password_used := none }
  match negotiate env 0 (passwordsOf device) with
  | (evs, .timeoutAt) =>
    ({ result0 with output := "连接超时", password_used := none }, evs)
  | (evs, .errorAt m) =>
    ({ result0 with output := "发生错误: " ++ m, password_used := none }, evs)
  | (evs, .exhausted) =>
    ({ result0 with output := "认证失败：所有密码尝试均失败", password_used := none }, evs)
  | (evs, .connected s rank) =>
    match s.findPrompt with
    | .error e =>
      ({ result0 with
          output := "执行命令时发生错误: " ++ e,
          password_used := some rank }, evs ++ [.close])
    | .ok prompt =>
      let commands := get_inspection_commands selfCommands device
      let t := runCommandsAux s 0 commands
      ({ result0 with
          hostname := rstripPrompt prompt,
          password_used := some rank,
          status := "success",
          output := t.1 }, evs ++ t.2 ++ [.close])

/-- The loop body of `run_inspection` (lines 271-279): device at position
`i` is inspected against environment `envf i`, results are appended in
order. -/
def run_inspection_go (envf : Nat → Env)
    (selfCommands : List (String × List String)) :
    Nat → List Device → List Result
  | _, [] => []
  | i, d :: rest =>
    (inspect_device (envf i) selfCommands d).1 ::
      run_inspection_go envf selfCommands (i + 1) rest

/-- `NetworkInspector.run_inspection` (lines 264-279). -/
def run_inspection (envf : Nat → Env)
    (selfCommands : List (String × List String)) (devices : List Device) :
    List Result :=
  run_inspection_go envf selfCommands 0 devices

/-- Event classifiers and counters over the instrumentation trace. -/
def isConnectEvent : Event → Bool
  | .connectAttempt _ _ => true
  | _ => false

def isSendEvent : Event → Bool
  | .sendCmd _ _ => true
  | _ => false

def isCloseEvent : Event → Bool
  | .close => true
  | _ => false

def numConnects (evs : List Event) : Nat := (evs.filter isConnectEvent).length

def numSends (evs : List Event) : Nat := (evs.filter isSendEvent).length

def numCloses (evs : List Event) : Nat := (evs.filter isCloseEvent).length

def sendEvents (evs : List Event) : List Event := evs.filter isSendEvent

/-- The rank of the last attempted candidate recorded in the trace, or
`none` when no candidate was attempted (used to state claim C5). -/
def lastAttemptRank (evs : List Event) : Option String :=
  match (evs.reverse).find? isConnectEvent with
  | some (.connectAttempt i _) => some (password_type i)
  | _ => none

/-- Whether negotiation produced a session. -/
def connectedB : NegotiationOutcome → Bool
  | .connected _ _ => true
  | _ => false

/-! ### Dict-level model of the descriptor manipulation (claim C10)

Python dicts are mutable heap objects; `inspect_device` writes only to
`result` (a fresh literal), and to `device_config`, obtained by
`device.copy()` (line 97): `pop('backup_password')`, `pop('commands')`
(lines 105-106), and `device_config['password'] = password` once per
attempted candidate (line 114).  To state that the caller's descriptor
is not mutated, these writes are modelled over an explicit heap of
dicts addressed by allocation index. -/

/-- A JSON-ish dict value as it appears in a device record. -/
inductive DVal where
  | str (s : String)
  | strs (l : List String)
  deriving DecidableEq, Repr

/-- A Python dict: association list with string keys. -/
abbrev Dict := List (String × DVal)

/-- A heap of dict objects; a reference is an index into the list. -/
abbrev DictHeap := List Dict

/-- Dereference (out-of-range reads give the empty dict; all theorems
use in-range references). -/
def readRef (h : DictHeap) (r : Nat) : Dict :=
  (List.getD h r [])

/-- `d.pop(k, None)`: remove the key from the dict. -/
def dictPop (d : Dict) (k : String) : Dict :=
  d.filter (fun kv => kv.1 ≠ k)

/-- `d[k] = v`: replace in place when the key exists, else append. -/
def dictSet (d : Dict) (k : String) (v : DVal) : Dict :=
  if (d.lookup k).isSome then
    d.map (fun kv => if kv.1 = k then (k, v) else kv)
  else
    d ++ [(k, v)]

/-- `device.copy()`: allocate a fresh dict with the same entries and
return the heap together with the new reference. -/
def copyAlloc (h : DictHeap) (r : Nat) : DictHeap × Nat :=
  (List.append h [readRef h r], List.length h)

/-- Mutate the dict behind a reference. -/
def updateRef (h : DictHeap) (r : Nat) (f : Dict → Dict) : DictHeap :=
  List.set h r (f (readRef h r))

/-- All dict writes `inspect_device` performs through `device_config`
(lines 97, 105-106, 114): the copy, the two pops, and one password
assignment per attempted candidate (`ps` is the list of passwords
actually placed into the config, a prefix of the candidate list).
Returns the final heap and the `device_config` reference. -/
def inspectDeviceWrites (h : DictHeap) (device : Nat) (ps : List String) :
    DictHeap × Nat :=
  let c := copyAlloc h device
  let h1 := updateRef c.1 c.2 (fun d => dictPop d "backup_password")
  let h2 := updateRef h1 c.2 (fun d => dictPop d "commands")
  let h3 := ps.foldl (fun hh p => updateRef hh c.2 (fun d => dictSet d "password" (DVal.str p))) h2
  (h3, c.2)

/-! ### Concrete fixtures for witnesses and counterexamples -/

/-- A session that answers every request. -/
def sOK : SessionBeh :=
  { findPrompt := .ok "Router#", send := fun _ _ => .ok (some "Version 1.0") }

/-- Environment: every connection attempt succeeds. -/
def envOK : Env := { connect := fun _ => .success sOK }

/-- Environment: every connection attempt is an authentication failure. -/
def envAuth : Env := { connect := fun _ => .authFail }

/-- Environment: the first connection attempt times out. -/
def envTimeout : Env := { connect := fun _ => .timeout }

/-- A device with a backup password and a device-level command override. -/
def dev0 : Device :=
  { host := "10.0.0.1", device_type := "cisco_ios", password := "p1",
    backup_password := some "p2", commands := some ["show version"] }

/-- A device with no backup password and no override. -/
def dev1 : Device :=
  { host := "10.0.0.2", device_type := "unknown_os", password := "p1",
    backup_password := none, commands := none }

/-! ### Structural lemmas about the embedding -/

lemma join_cons (a : String) (l : List String) :
    String.join (a :: l) = a ++ String.join l := by
  simp only [String.join_eq, List.map_cons, List.flatten_cons]
  rfl

/-- Every event recorded by the credential loop is a connection attempt. -/
lemma negotiate_events_connect (env : Env) :
    ∀ (ps : List String) (i : Nat), ∀ e ∈ (negotiate env i ps).1,
      isConnectEvent e = true := by
  intro ps
  induction ps with
  | nil => intro i e he; simp [negotiate] at he
  | cons p rest ih =>
    intro i e he
    unfold negotiate at he
    cases hc : env.connect i <;> rw [hc] at he <;> simp at he
    case success => subst he; rfl
    case authFail =>
      rcases he with he | he
      · subst he; rfl
      · exact ih (i + 1) e he
    case timeout => subst he; rfl
    case otherError => subst he; rfl

lemma numSends_negotiate (env : Env) (ps : List String) (i : Nat) :
    numSends (negotiate env i ps).1 = 0 := by
  unfold numSends
  rw [List.length_eq_zero, List.filter_eq_nil_iff]
  intro e he
  have h := negotiate_events_connect env ps i e he
  cases e <;> simp_all [isConnectEvent, isSendEvent]

lemma numCloses_negotiate (env : Env) (ps : List String) (i : Nat) :
    numCloses (negotiate env i ps).1 = 0 := by
  unfold numCloses
  rw [List.length_eq_zero, List.filter_eq_nil_iff]
  intro e he
  have h := negotiate_events_connect env ps i e he
  cases e <;> simp_all [isConnectEvent, isCloseEvent]

lemma sendEvents_negotiate (env : Env) (ps : List String) (i : Nat) :
    sendEvents (negotiate env i ps).1 = [] := by
  unfold sendEvents
  rw [List.filter_eq_nil_iff]
  intro e he
  have h := negotiate_events_connect env ps i e he
  cases e <;> simp_all [isConnectEvent, isSendEvent]

/-- Closed form of the command loop: one labelled transcript section and
one send event per command, in command order. -/
lemma runCommandsAux_eq (s : SessionBeh) :
    ∀ (cmds : List String) (i : Nat),
      runCommandsAux s i cmds =
        (String.join ((List.enumFrom i cmds).map
            fun p => commandLabel p.2 ++ commandBody s p.1 p.2),
         (List.enumFrom i cmds).map fun p => Event.sendCmd p.1 p.2) := by
  intro cmds
  induction cmds with
  | nil => intro i; rfl
  | cons c rest ih =>
    intro i
    simp only [runCommandsAux, List.enumFrom_cons, List.map_cons, join_cons,
      ih (i + 1)]

/-- The candidate list always starts with the primary password. -/
lemma passwordsOf_cons (d : Device) :
    ∃ rest, passwordsOf d = d.password :: rest := by
  unfold passwordsOf
  cases d.backup_password with
  | none => exact ⟨[], rfl⟩
  | some b =>
    by_cases hb : b = "" <;> simp [hb]

/-- When every candidate is rejected as an authentication failure, the
loop attempts each in order and reports exhaustion. -/
lemma negotiate_all_authFail (env : Env) :
    ∀ (ps : List String) (i : Nat),
      (∀ k, k < ps.length → env.connect (i + k) = .authFail) →
      negotiate env i ps =
        ((List.enumFrom i ps).map fun p => Event.connectAttempt p.1 p.2,
         .exhausted) := by
  intro ps
  induction ps with
  | nil => intro i _; rfl
  | cons p rest ih =>
    intro i h
    have h0 : env.connect i = .authFail := by simpa using h 0 (by simp)
    have hrest : ∀ k, k < rest.length → env.connect (i + 1 + k) = .authFail := by
      intro k hk
      have := h (k + 1) (by simpa using Nat.succ_lt_succ hk)
      rw [Nat.add_right_comm]
      exact this
    simp [negotiate, h0, List.enumFrom_cons, ih (i + 1) hrest]

/-- Skipping `j` initial authentication rejections: the loop's trace is
the `j` rejected attempts followed by whatever happens on the rest. -/
lemma negotiate_skip (env : Env) :
    ∀ (j : Nat) (ps : List String) (i : Nat), j < ps.length →
      (∀ k, k < j → env.connect (i + k) = .authFail) →
      negotiate env i ps =
        (((List.enumFrom i (ps.take j)).map
            fun p => Event.connectAttempt p.1 p.2) ++
          (negotiate env (i + j) (ps.drop j)).1,
         (negotiate env (i + j) (ps.drop j)).2) := by
  intro j
  induction j with
  | zero => intro ps i _ _; simp
  | succ j ih =>
    intro ps i hj hk
    cases ps with
    | nil => simp at hj
    | cons p rest =>
      have h0 : env.connect i = .authFail := by simpa using hk 0 (Nat.succ_pos j)
      have hrest : ∀ k, k < j → env.connect (i + 1 + k) = .authFail := by
        intro k hkk
        have := hk (k + 1) (Nat.succ_lt_succ hkk)
        rw [Nat.add_right_comm]
        exact this
      have hjr : j < rest.length := Nat.lt_of_succ_lt_succ hj
      have hih := ih rest (i + 1) hjr hrest
      simp only [negotiate, h0, List.take_succ_cons, List.drop_succ_cons,
        List.enumFrom_cons, List.map_cons, hih]
      have harith : i + 1 + j = i + (j + 1) := by omega
      rw [harith]
      rfl

lemma filter_connect_negotiate (env : Env) (ps : List String) (i : Nat) :
    (negotiate env i ps).1.filter isConnectEvent = (negotiate env i ps).1 :=
  List.filter_eq_self.mpr (negotiate_events_connect env ps i)

lemma filter_connect_sendMap (l : List (Nat × String)) :
    (l.map fun p => Event.sendCmd p.1 p.2).filter isConnectEvent = [] := by
  rw [List.filter_eq_nil_iff]
  intro e he
  simp only [List.mem_map] at he
  obtain ⟨p, _, rfl⟩ := he
  simp [isConnectEvent]

lemma filter_send_sendMap (l : List (Nat × String)) :
    (l.map fun p => Event.sendCmd p.1 p.2).filter isSendEvent =
      l.map fun p => Event.sendCmd p.1 p.2 := by
  rw [List.filter_eq_self]
  intro e he
  simp only [List.mem_map] at he
  obtain ⟨p, _, rfl⟩ := he
  simp [isSendEvent]

lemma filter_close_sendMap (l : List (Nat × String)) :
    (l.map fun p => Event.sendCmd p.1 p.2).filter isCloseEvent = [] := by
  rw [List.filter_eq_nil_iff]
  intro e he
  simp only [List.mem_map] at he
  obtain ⟨p, _, rfl⟩ := he
  simp [isCloseEvent]

lemma run_inspection_go_length (envf : Nat → Env)
    (f : List (String × List String)) :
    ∀ (ds : List Device) (i : Nat),
      (run_inspection_go envf f i ds).length = ds.length := by
  intro ds
  induction ds with
  | nil => intro i; rfl
  | cons d rest ih => intro i; simp [run_inspection_go, ih (i + 1)]

lemma run_inspection_go_getElem (envf : Nat → Env)
    (f : List (String × List String)) :
    ∀ (ds : List Device) (i j : Nat),
      (run_inspection_go envf f i ds)[j]? =
        (ds[j]?).map (fun d => (inspect_device (envf (i + j)) f d).1) := by
  intro ds
  induction ds with
  | nil => intro i j; simp [run_inspection_go]
  | cons d rest ih =>
    intro i j
    cases j with
    | zero => simp [run_inspection_go]
    | succ j =>
      simp only [run_inspection_go, List.getElem?_cons_succ, ih (i + 1) j]
      have harith : i + 1 + j = i + (j + 1) := by omega
      rw [harith]

/-! ### Claim theorems -/

/-- C1: for every list of device descriptors, `run_inspection` returns
exactly one `InspectionResult` per input descriptor, and the results
appear in the same order as the input devices (the `j`-th result is the
inspection of the `j`-th device), regardless of any per-device
failures (the environments `envf` are unconstrained). -/
theorem run_inspection_one_result_per_device (envf : Nat → Env)
    (f : List (String × List String)) (devices : List Device) :
    (run_inspection envf f devices).length = devices.length ∧
    ∀ j (hj : j < devices.length),
      (run_inspection envf f devices)[j]? =
        some (inspect_device (envf j) f (devices.get ⟨j, hj⟩)).1 := by
  constructor
  · exact run_inspection_go_length envf f devices 0
  · intro j hj
    have h := run_inspection_go_getElem envf f devices 0 j
    rw [run_inspection, h, List.getElem?_eq_getElem hj]
    simp

/-- Witness for C1 at a concrete one-device list. -/
theorem run_inspection_one_result_per_device_witness :
    (run_inspection (fun _ => envOK) [] [dev0]).length = 1 ∧
    (run_inspection (fun _ => envOK) [] [dev0])[0]? =
      some (inspect_device envOK [] dev0).1 := by
  have h := run_inspection_one_result_per_device (fun _ => envOK) [] [dev0]
  refine ⟨h.1, ?_⟩
  simpa using h.2 0 (by decide)

/-- C2: if opening a session with the primary credential succeeds, the
result's credential rank is the primary label (`"主密码"`) and the backup
credential is never attempted: the session provider is called exactly
once, for any session behaviour and any device. -/
theorem primary_success_short_circuits (env : Env)
    (f : List (String × List String)) (d : Device) (s : SessionBeh)
    (h : env.connect 0 = .success s) :
    (inspect_device env f d).1.password_used = some "主密码" ∧
    numConnects (inspect_device env f d).2 = 1 := by
  obtain ⟨rest, hps⟩ := passwordsOf_cons d
  have hneg : negotiate env 0 (passwordsOf d) =
      ([.connectAttempt 0 d.password], .connected s (password_type 0)) := by
    rw [hps]
    simp [negotiate, h]
  cases hfp : s.findPrompt with
  | error e =>
    simp [inspect_device, hneg, hfp, password_type, numConnects,
      isConnectEvent, List.filter]
  | ok p =>
    simp only [inspect_device, hneg, hfp, password_type, if_pos rfl]
    refine ⟨rfl, ?_⟩
    simp only [numConnects, List.filter_append, runCommandsAux_eq,
      List.length_append]
    rw [filter_connect_sendMap]
    simp [isConnectEvent, List.filter]

/-- Witness for C2 at a concrete device and environment. -/
theorem primary_success_short_circuits_witness :
    (inspect_device envOK [] dev0).1.password_used = some "主密码" ∧
    numConnects (inspect_device envOK [] dev0).2 = 1 :=
  primary_success_short_circuits envOK [] dev0 sOK rfl

lemma filter_connect_caMap (l : List (Nat × String)) :
    (l.map fun p => Event.connectAttempt p.1 p.2).filter isConnectEvent =
      l.map fun p => Event.connectAttempt p.1 p.2 := by
  rw [List.filter_eq_self]
  intro e he
  simp only [List.mem_map] at he
  obtain ⟨p, _, rfl⟩ := he
  simp [isConnectEvent]

lemma filter_send_caMap (l : List (Nat × String)) :
    (l.map fun p => Event.connectAttempt p.1 p.2).filter isSendEvent = [] := by
  rw [List.filter_eq_nil_iff]
  intro e he
  simp only [List.mem_map] at he
  obtain ⟨p, _, rfl⟩ := he
  simp [isSendEvent]

/-- The credential loop's trace when the first `j` candidates are
rejected and candidate `j` fails with a non-authentication outcome
`fo` (timeout or other error): exactly the `j + 1` attempts, terminal
outcome as dictated by `fo`. -/
lemma negotiate_nonauth_at (env : Env) (ps : List String) (j : Nat)
    (hj : j < ps.length) (hprev : ∀ k, k < j → env.connect k = .authFail)
    (out : NegotiationOutcome)
    (hout : (env.connect j = .timeout ∧ out = .timeoutAt) ∨
            (∃ m, env.connect j = .otherError m ∧ out = .errorAt m)) :
    negotiate env 0 ps =
      ((List.enumFrom 0 (ps.take j)).map
          (fun p => Event.connectAttempt p.1 p.2) ++
        [Event.connectAttempt j (ps.get ⟨j, hj⟩)], out) := by
  have hskip := negotiate_skip env j ps 0 hj (by simpa using hprev)
  rw [Nat.zero_add] at hskip
  have hdrop : ps.drop j = ps.get ⟨j, hj⟩ :: ps.drop (j + 1) := by
    rw [List.drop_eq_getElem_cons hj]
    simp
  rcases hout with ⟨hc, rfl⟩ | ⟨m, hc, rfl⟩ <;>
    rw [hskip, hdrop] <;> simp [negotiate, hc]

/-- C3: if the attempt with candidate `j` fails with a timeout or any
non-authentication connection error (all earlier candidates having been
rejected as authentication failures), the negotiation aborts
immediately: exactly `j + 1` provider calls are made (no further
candidates), the result has status `failed`, its output is the failure
description, and no command is ever sent. -/
theorem nonauth_failure_aborts (env : Env)
    (f : List (String × List String)) (d : Device) (j : Nat) (m : String)
    (hj : j < (passwordsOf d).length)
    (hprev : ∀ k, k < j → env.connect k = .authFail) :
    (env.connect j = .timeout →
      (inspect_device env f d).1.status = "failed" ∧
      (inspect_device env f d).1.output = "连接超时" ∧
      numConnects (inspect_device env f d).2 = j + 1 ∧
      numSends (inspect_device env f d).2 = 0) ∧
    (env.connect j = .otherError m →
      (inspect_device env f d).1.status = "failed" ∧
      (inspect_device env f d).1.output = "发生错误: " ++ m ∧
      numConnects (inspect_device env f d).2 = j + 1 ∧
      numSends (inspect_device env f d).2 = 0) := by
  constructor
  · intro hc
    have hneg := negotiate_nonauth_at env (passwordsOf d) j hj hprev
      .timeoutAt (Or.inl ⟨hc, rfl⟩)
    refine ⟨by simp [inspect_device, hneg], by simp [inspect_device, hneg], ?_, ?_⟩
    · simp only [inspect_device, hneg, numConnects, List.filter_append,
        filter_connect_caMap, List.length_append, List.length_map,
        List.enumFrom_length, List.length_take]
      simp [isConnectEvent, List.filter, Nat.min_eq_left (Nat.le_of_lt hj)]
    · simp only [inspect_device, hneg, numSends, List.filter_append,
        filter_send_caMap, List.length_append]
      simp [isSendEvent, List.filter]
  · intro hc
    have hneg := negotiate_nonauth_at env (passwordsOf d) j hj hprev
      (.errorAt m) (Or.inr ⟨m, hc, rfl⟩)
    refine ⟨by simp [inspect_device, hneg], by simp [inspect_device, hneg], ?_, ?_⟩
    · simp only [inspect_device, hneg, numConnects, List.filter_append,
        filter_connect_caMap, List.length_append, List.length_map,
        List.enumFrom_length, List.length_take]
      simp [isConnectEvent, List.filter, Nat.min_eq_left (Nat.le_of_lt hj)]
    · simp only [inspect_device, hneg, numSends, List.filter_append,
        filter_send_caMap, List.length_append]
      simp [isSendEvent, List.filter]

/-- Witness for C3: the primary attempt times out on a device that has a
backup password; the backup is never attempted. -/
theorem nonauth_failure_aborts_witness :
    (inspect_device envTimeout [] dev0).1.status = "failed" ∧
    (inspect_device envTimeout [] dev0).1.output = "连接超时" ∧
    numConnects (inspect_device envTimeout [] dev0).2 = 0 + 1 ∧
    numSends (inspect_device envTimeout [] dev0).2 = 0 :=
  (nonauth_failure_aborts envTimeout [] dev0 0 "unused" (by decide)
    (fun k hk => absurd hk (Nat.not_lt_zero k))).1 rfl

lemma filter_close_negotiate (env : Env) (ps : List String) (i : Nat) :
    (negotiate env i ps).1.filter isCloseEvent = [] := by
  rw [List.filter_eq_nil_iff]
  intro e he
  have h := negotiate_events_connect env ps i e he
  cases e <;> simp_all [isConnectEvent, isCloseEvent]

lemma filter_send_negotiate (env : Env) (ps : List String) (i : Nat) :
    (negotiate env i ps).1.filter isSendEvent = [] := by
  rw [List.filter_eq_nil_iff]
  intro e he
  have h := negotiate_events_connect env ps i e he
  cases e <;> simp_all [isConnectEvent, isSendEvent]

/-- C4: when every candidate credential is rejected as an authentication
failure, the result has status `failed` with the auth-exhausted failure
description, the credential rank is `none`, and no inspection command is
ever sent over any session. -/
theorem auth_exhausted_no_commands (env : Env)
    (f : List (String × List String)) (d : Device)
    (h : ∀ k, k < (passwordsOf d).length → env.connect k = .authFail) :
    (inspect_device env f d).1.status = "failed" ∧
    (inspect_device env f d).1.output = "认证失败：所有密码尝试均失败" ∧
    (inspect_device env f d).1.password_used = none ∧
    numSends (inspect_device env f d).2 = 0 := by
  have hneg := negotiate_all_authFail env (passwordsOf d) 0 (by simpa using h)
  refine ⟨by simp [inspect_device, hneg], by simp [inspect_device, hneg],
    by simp [inspect_device, hneg], ?_⟩
  simp [inspect_device, hneg, numSends, filter_send_caMap]

/-- Witness for C4: primary rejected, no backup configured. -/
theorem auth_exhausted_no_commands_witness :
    (inspect_device envAuth [] dev1).1.status = "failed" ∧
    (inspect_device envAuth [] dev1).1.output = "认证失败：所有密码尝试均失败" ∧
    (inspect_device envAuth [] dev1).1.password_used = none ∧
    numSends (inspect_device envAuth [] dev1).2 = 0 :=
  auth_exhausted_no_commands envAuth [] dev1 (fun _ _ => rfl)

/-- C5 as stated is false: with a backup password configured and the
primary attempt timing out, a candidate was attempted (the trace's last
attempted rank is the primary label), yet the result's credential rank
is `none`, not the last attempted rank. -/
theorem last_attempt_rank_counterexample :
    ¬ ((inspect_device envTimeout [] dev0).1.status = "failed" →
       (inspect_device envTimeout [] dev0).1.password_used =
         lastAttemptRank (inspect_device envTimeout [] dev0).2) := by
  decide

/-- C5 (amended): whenever negotiation fails (auth exhausted, timeout,
or other connection error — i.e. no session was produced), the result's
credential rank is always `none`, regardless of how many candidates were
attempted. -/
theorem negotiation_failure_rank_none (env : Env)
    (f : List (String × List String)) (d : Device)
    (h : connectedB (negotiate env 0 (passwordsOf d)).2 = false) :
    (inspect_device env f d).1.password_used = none := by
  rcases hn : negotiate env 0 (passwordsOf d) with ⟨evs, out⟩
  cases out with
  | connected s r => rw [hn] at h; simp [connectedB] at h
  | timeoutAt => simp [inspect_device, hn]
  | errorAt m => simp [inspect_device, hn]
  | exhausted => simp [inspect_device, hn]

/-- Witness for the amended C5. -/
theorem negotiation_failure_rank_none_witness :
    (inspect_device envTimeout [] dev0).1.password_used = none :=
  negotiation_failure_rank_none envTimeout [] dev0 (by decide)

/-- C6: command resolution follows the four-level precedence, first
match wins: non-empty descriptor override; else the external
per-platform command set when the platform is a key; else the built-in
default set for the platform; else the single-element generic
version-query sequence. -/
theorem command_resolution_precedence (ext : List (String × List String))
    (d : Device) :
    (∀ cs, d.commands = some cs → cs ≠ [] →
      get_inspection_commands ext d = cs) ∧
    (overrideTruthy d = false →
      ∀ v, ext.lookup d.device_type = some v →
        get_inspection_commands ext d = v) ∧
    (overrideTruthy d = false → ext.lookup d.device_type = none →
      ∀ v, commands_map.lookup d.device_type = some v →
        get_inspection_commands ext d = v) ∧
    (overrideTruthy d = false → ext.lookup d.device_type = none →
      commands_map.lookup d.device_type = none →
      get_inspection_commands ext d = ["show version"]) := by
  refine ⟨?_, ?_, ?_, ?_⟩
  · intro cs hcs hne
    have hov : overrideTruthy d = true := by simp [overrideTruthy, hcs, hne]
    simp [get_inspection_commands, hov, hcs]
  · intro hov v hl
    have hne : ext ≠ [] := by
      rintro rfl
      simp [List.lookup] at hl
    simp [get_inspection_commands, hov, hl, hne]
  · intro hov hl v hb
    simp [get_inspection_commands, hov, hl, hb]
  · intro hov hl hb
    simp [get_inspection_commands, hov, hl, hb]

/-- Witness for C6: a device override beats both an external mapping and
the built-in default for its platform. -/
theorem command_resolution_precedence_witness :
    get_inspection_commands [("cisco_ios", ["cmdB"])] dev0 = ["show version"] :=
  (command_resolution_precedence [("cisco_ios", ["cmdB"])] dev0).1
    ["show version"] rfl (by decide)

/-- C7: whenever the result has status `success`, the trace contains one
send event per resolved command, in command order — so a per-command
failure never stopped execution of later commands — and the transcript is
exactly the concatenation, in command order, of one labelled entry per
resolved command (the entry being the command's output or its inline
per-command failure marker). -/
theorem success_transcript_complete (env : Env)
    (f : List (String × List String)) (d : Device)
    (h : (inspect_device env f d).1.status = "success") :
    sendEvents (inspect_device env f d).2 =
      (List.enumFrom 0 (get_inspection_commands f d)).map
        (fun p => Event.sendCmd p.1 p.2) ∧
    ∃ s : SessionBeh,
      (inspect_device env f d).1.output =
        String.join ((List.enumFrom 0 (get_inspection_commands f d)).map
          (fun p => commandLabel p.2 ++ commandBody s p.1 p.2)) := by
  rcases hn : negotiate env 0 (passwordsOf d) with ⟨evs, out⟩
  cases out with
  | timeoutAt =>
    rw [show (inspect_device env f d).1.status = "failed" by
      simp [inspect_device, hn]] at h
    exact absurd h (by decide)
  | errorAt m =>
    rw [show (inspect_device env f d).1.status = "failed" by
      simp [inspect_device, hn]] at h
    exact absurd h (by decide)
  | exhausted =>
    rw [show (inspect_device env f d).1.status = "failed" by
      simp [inspect_device, hn]] at h
    exact absurd h (by decide)
  | connected s rank =>
    cases hfp : s.findPrompt with
    | error e =>
      rw [show (inspect_device env f d).1.status = "failed" by
        simp [inspect_device, hn, hfp]] at h
      exact absurd h (by decide)
    | ok p =>
      have hevs : evs.filter isSendEvent = [] := by
        have hf := filter_send_negotiate env (passwordsOf d) 0
        rwa [hn] at hf
      refine ⟨?_, s, ?_⟩
      · simp [inspect_device, hn, hfp, sendEvents, List.filter_append, hevs,
          runCommandsAux_eq, filter_send_sendMap, isSendEvent, List.filter]
      · simp [inspect_device, hn, hfp, runCommandsAux_eq]

/-- Witness for C7 at a successful concrete inspection. -/
theorem success_transcript_complete_witness :
    sendEvents (inspect_device envOK [] dev0).2 =
      (List.enumFrom 0 (get_inspection_commands [] dev0)).map
        (fun p => Event.sendCmd p.1 p.2) ∧
    ∃ s : SessionBeh,
      (inspect_device envOK [] dev0).1.output =
        String.join ((List.enumFrom 0 (get_inspection_commands [] dev0)).map
          (fun p => commandLabel p.2 ++ commandBody s p.1 p.2)) :=
  success_transcript_complete envOK [] dev0 (by decide)

/-- C8: the session's close operation runs exactly once whenever
negotiation produced a session (success, per-command failures, or an
exception escaping the prompt/execution step), and never when the
connection failed before a session existed. -/
theorem session_closed_exactly_once (env : Env)
    (f : List (String × List String)) (d : Device) :
    numCloses (inspect_device env f d).2 =
      if connectedB (negotiate env 0 (passwordsOf d)).2 then 1 else 0 := by
  rcases hn : negotiate env 0 (passwordsOf d) with ⟨evs, out⟩
  have hevs : evs.filter isCloseEvent = [] := by
    have hf := filter_close_negotiate env (passwordsOf d) 0
    rwa [hn] at hf
  cases out with
  | connected s rank =>
    cases hfp : s.findPrompt with
    | error e =>
      simp [inspect_device, hn, hfp, connectedB, numCloses,
        List.filter_append, hevs, isCloseEvent, List.filter]
    | ok p =>
      simp [inspect_device, hn, hfp, connectedB, numCloses,
        List.filter_append, hevs, runCommandsAux_eq, filter_close_sendMap,
        isCloseEvent, List.filter]
  | timeoutAt => simp [inspect_device, hn, connectedB, numCloses, hevs]
  | errorAt m => simp [inspect_device, hn, connectedB, numCloses, hevs]
  | exhausted => simp [inspect_device, hn, connectedB, numCloses, hevs]

/-- C9: the result's hostname is the live session's prompt with trailing
decoration stripped when a session was opened and the prompt was
obtained; otherwise (prompt retrieval raised, or no session) it is the
descriptor's address. -/
theorem hostname_resolution (env : Env)
    (f : List (String × List String)) (d : Device) :
    (∀ s rank, (negotiate env 0 (passwordsOf d)).2 = .connected s rank →
      (∀ p, s.findPrompt = .ok p →
        (inspect_device env f d).1.hostname = rstripPrompt p) ∧
      (∀ e, s.findPrompt = .error e →
        (inspect_device env f d).1.hostname = d.host)) ∧
    (connectedB (negotiate env 0 (passwordsOf d)).2 = false →
      (inspect_device env f d).1.hostname = d.host) := by
  rcases hn : negotiate env 0 (passwordsOf d) with ⟨evs, out⟩
  constructor
  · intro s rank hout
    simp only at hout
    subst hout
    constructor
    · intro p hfp
      simp [inspect_device, hn, hfp]
    · intro e hfp
      simp [inspect_device, hn, hfp]
  · intro hfalse
    cases out with
    | connected s rank => simp [connectedB] at hfalse
    | timeoutAt => simp [inspect_device, hn]
    | errorAt m => simp [inspect_device, hn]
    | exhausted => simp [inspect_device, hn]

/-- Witness for C9: the prompt `Router#` yields hostname `Router`. -/
theorem hostname_resolution_witness :
    (inspect_device envOK [] dev0).1.hostname = rstripPrompt "Router#" :=
  ((hostname_resolution envOK [] dev0).1 sOK "主密码" rfl).1 "Router#" rfl

/-- Reading an untouched reference through an update elsewhere. -/
lemma readRef_updateRef_ne (h : DictHeap) (c r : Nat) (hne : c ≠ r)
    (g : Dict → Dict) : readRef (updateRef h c g) r = readRef h r := by
  simp [readRef, updateRef, List.getD, List.getElem?_set_ne hne]

lemma readRef_foldl_updateRef_ne (c r : Nat) (hne : c ≠ r)
    (g : String → Dict → Dict) :
    ∀ (ps : List String) (h : DictHeap),
      readRef (ps.foldl (fun hh p => updateRef hh c (g p)) h) r =
        readRef h r := by
  intro ps
  induction ps with
  | nil => intro h; rfl
  | cons p rest ih =>
    intro h
    rw [List.foldl_cons, ih, readRef_updateRef_ne _ _ _ hne]

/-- C10: `inspect_device` never mutates the caller's descriptor: the
key removals and the per-attempt password writes all go through the
`device.copy()` reference, so the original dict is unchanged for every
heap, in-range descriptor reference, and sequence of attempted
passwords. -/
theorem descriptor_not_mutated (h : DictHeap) (r : Nat)
    (hr : r < h.length) (ps : List String) :
    readRef (inspectDeviceWrites h r ps).1 r = readRef h r := by
  have hne : h.length ≠ r := by omega
  simp only [inspectDeviceWrites, copyAlloc]
  rw [readRef_foldl_updateRef_ne _ _ hne, readRef_updateRef_ne _ _ _ hne,
    readRef_updateRef_ne _ _ _ hne]
  simp [readRef, List.getD, List.getElem?_append, hr]

/-- Witness for C10 on a concrete one-dict heap. -/
theorem descriptor_not_mutated_witness :
    readRef (inspectDeviceWrites
      [[("host", DVal.str "10.0.0.1"), ("password", DVal.str "p1"),
        ("backup_password", DVal.str "p2")]] 0 ["p1", "p2"]).1 0 =
    readRef [[("host", DVal.str "10.0.0.1"), ("password", DVal.str "p1"),
        ("backup_password", DVal.str "p2")]] 0 :=
  descriptor_not_mutated _ 0 (by decide) ["p1", "p2"]

end NetworkInspector
